import Mathlib

/-!
# Verification of the Cassandra native-protocol frame codec

A shallow embedding of the frame and message codecs of
`go-cassandra-native-protocol` (packages `cassandraprotocol/frame` and
`cassandraprotocol/message`), together with theorems settling the claims of
the specification against the code.

Bytes are modelled as `Nat` values below 256 inside `List Nat`; protocol
strings are modelled directly as their byte lists.  Fallible operations
return `Except Err α`.  A failed unchecked Go type assertion (a runtime
panic) is modelled by the distinguished error `Err.assertFailed`, which is
distinct from every error value the code returns.
-/

namespace CassandraProtocol

/-- Error outcomes, one constructor per distinct failure site of the code
(the Go code returns string errors; the constructors follow §7 of the spec). -/
inductive Err where
  | typeMismatch
  | assertFailed
  | unknownVariant
  | versionFeatureMismatch
  | unsupportedOpcode
  | shortRead
  | invalidEncoding
  | payloadVersionError
  | warningsVersionError
  deriving DecidableEq, Repr

abbrev ProtocolVersion := Nat

/-- Modelled from the spec: supported protocol versions are 3, 4 and a beta
marker for version 5 (the constant declarations are not under `src/`). -/
def ProtocolVersion3 : ProtocolVersion := 3

def ProtocolVersion4 : ProtocolVersion := 4

def ProtocolVersionBeta : ProtocolVersion := 5

abbrev OpCode := Nat

/-- Modelled from the spec: opcode constants (READY=0x02, EVENT=0x0C, ...). -/
def OpCodeStartup : OpCode := 0x01

def OpCodeReady : OpCode := 0x02

def OpCodeOptions : OpCode := 0x05

def OpCodeEvent : OpCode := 0x0C

def OpCodeAuthChallenge : OpCode := 0x0E

def OpCodeAuthResponse : OpCode := 0x0F

/-- Modelled from the spec §6: flag bits of the header flags byte. -/
def HeaderFlagCompressed : Nat := 0x01

def HeaderFlagTracing : Nat := 0x02

def HeaderFlagCustomPayload : Nat := 0x04

def HeaderFlagWarning : Nat := 0x08

def HeaderFlagUseBeta : Nat := 0x10

/-- ASCII byte list of a literal, used for the protocol's constant strings. -/
def ascii (s : String) : List Nat := s.data.map Char.toNat

/-- Modelled from the spec: event type constants. -/
def EventTypeSchemaChange : List Nat := ascii "SCHEMA_CHANGE"

def EventTypeStatusChange : List Nat := ascii "STATUS_CHANGE"

def EventTypeTopologyChange : List Nat := ascii "TOPOLOGY_CHANGE"

/-- Modelled from the spec: schema change target constants. -/
def SchemaChangeTargetKeyspace : List Nat := ascii "KEYSPACE"

def SchemaChangeTargetTable : List Nat := ascii "TABLE"

def SchemaChangeTargetType : List Nat := ascii "TYPE"

def SchemaChangeTargetFunction : List Nat := ascii "FUNCTION"

def SchemaChangeTargetAggregate : List Nat := ascii "AGGREGATE"

/-! ## Primitives

The `primitives` package is not under `src/`; every definition in this
section is modelled from the spec, §4.1: each wire type's writer, reader and
length predictor. -/

/-- Modelled from the spec: one big-endian byte. -/
def WriteByte (b : Nat) : List Nat := [b % 256]

/-- Modelled from the spec: 2 big-endian bytes, unsigned. -/
def WriteShort (n : Nat) : List Nat := [n / 256 % 256, n % 256]

/-- Modelled from the spec: 4 big-endian bytes, signed (two's complement). -/
def WriteInt (n : Int) : List Nat :=
  let u := (n % (2 ^ 32 : Int)).toNat
  [u / 2 ^ 24 % 256, u / 2 ^ 16 % 256, u / 2 ^ 8 % 256, u % 256]

/-- Modelled from the spec: a uuid is 16 bytes verbatim. -/
def WriteUuid (u : List Nat) : List Nat := u

def LengthOfUuid : Nat := 16

/-- Modelled from the spec: short `n` + `n` UTF-8 bytes. -/
def WriteString (s : List Nat) : List Nat := WriteShort s.length ++ s

def LengthOfString (s : List Nat) : Nat := 2 + s.length

/-- Modelled from the spec: int `n` + `n` bytes; `n = -1` encodes absent. -/
def WriteBytes : Option (List Nat) → List Nat
  | none => WriteInt (-1)
  | some b => WriteInt (b.length : Int) ++ b

def LengthOfBytes : Option (List Nat) → Nat
  | none => 4
  | some b => 4 + b.length

/-- Modelled from the spec: short `n` + `n` strings. -/
def WriteStringList (l : List (List Nat)) : List Nat :=
  WriteShort l.length ++ (l.map WriteString).flatten

def LengthOfStringList (l : List (List Nat)) : Nat :=
  2 + (l.map LengthOfString).sum

/-- Modelled from the spec: short `n` + `n` × (string, bytes) entries; the Go
map is modelled as an association list in the codec's iteration order. -/
def WriteBytesMap (m : List (List Nat × Option (List Nat))) : List Nat :=
  WriteShort m.length ++ (m.map (fun e => WriteString e.1 ++ WriteBytes e.2)).flatten

def LengthOfBytesMap (m : List (List Nat × Option (List Nat))) : Nat :=
  2 + (m.map (fun e => LengthOfString e.1 + LengthOfBytes e.2)).sum

/-- An inet address: 4 or 16 address bytes plus a signed 32-bit port. -/
structure Inet where
  addr : List Nat
  port : Int
  deriving DecidableEq, Repr

/-- Modelled from the spec: byte `a` (∈ {4, 16}) + `a` address bytes + int
port; an address length outside {4, 16} is an invalid encoding. -/
def WriteInet (i : Inet) : Except Err (List Nat) :=
  if i.addr.length = 4 ∨ i.addr.length = 16 then
    .ok (WriteByte i.addr.length ++ i.addr ++ WriteInt i.port)
  else .error .invalidEncoding

def LengthOfInet (i : Inet) : Except Err Nat :=
  if i.addr.length = 4 ∨ i.addr.length = 16 then .ok (1 + i.addr.length + 4)
  else .error .invalidEncoding

/-- Modelled from the spec: readers fail with `ShortRead` when the buffer is
exhausted; each reader returns the value and the unread remainder. -/
def ReadShort : List Nat → Except Err (Nat × List Nat)
  | a :: b :: rest => .ok (a * 256 + b, rest)
  | _ => .error .shortRead

def ReadInt : List Nat → Except Err (Int × List Nat)
  | a :: b :: c :: d :: rest =>
    let u := ((a * 256 + b) * 256 + c) * 256 + d
    .ok (if u < 2 ^ 31 then (u : Int) else (u : Int) - 2 ^ 32, rest)
  | _ => .error .shortRead

def ReadString (source : List Nat) : Except Err (List Nat × List Nat) :=
  match ReadShort source with
  | .error e => .error e
  | .ok (n, rest) =>
    if n ≤ rest.length then .ok (rest.take n, rest.drop n) else .error .shortRead

/-- Reads `n` consecutive strings (the loop body of the string-list reader). -/
def ReadStrings : Nat → List Nat → Except Err (List (List Nat) × List Nat)
  | 0, source => .ok ([], source)
  | n + 1, source =>
    match ReadString source with
    | .error e => .error e
    | .ok (s, rest) =>
      match ReadStrings n rest with
      | .error e => .error e
      | .ok (ss, rest2) => .ok (s :: ss, rest2)

def ReadStringList (source : List Nat) : Except Err (List (List Nat) × List Nat) :=
  match ReadShort source with
  | .error e => .error e
  | .ok (n, rest) => ReadStrings n rest

def ReadInet (source : List Nat) : Except Err (Inet × List Nat) :=
  match source with
  | [] => .error .shortRead
  | a :: rest =>
    if a = 4 ∨ a = 16 then
      if a ≤ rest.length then
        match ReadInt (rest.drop a) with
        | .error e => .error e
        | .ok (p, rest2) => .ok (⟨rest.take a, p⟩, rest2)
      else .error .shortRead
    else .error .invalidEncoding

/-! ## Messages

The message structs.  `AuthChallenge`, `AuthResponse` and `Ready` are
translated from `src/cassandraprotocol/message`; the event structs embed an
`Event` struct whose declaration is not under `src/`, so the embedded
`Event.Type` field is modelled from the spec as the stored `eventType`
field of each event variant. -/

structure SchemaChangeEvent where
  eventType : List Nat
  changeType : List Nat
  target : List Nat
  keyspace : List Nat
  object : List Nat
  arguments : List (List Nat)
  deriving DecidableEq, Repr

structure StatusChangeEvent where
  eventType : List Nat
  changeType : List Nat
  address : Inet
  deriving DecidableEq, Repr

structure TopologyChangeEvent where
  eventType : List Nat
  changeType : List Nat
  address : Inet
  deriving DecidableEq, Repr

/-- The message universe relevant to the covered code: the concrete dynamic
types a `Message` interface value can carry here.  `startup` and `options`
carry no fields we need; they exist because the compression policy singles
out their opcodes. -/
inductive Message where
  | authChallenge (token : Option (List Nat))
  | authResponse (token : Option (List Nat))
  | ready
  | startup
  | options
  | schemaChange (e : SchemaChangeEvent)
  | statusChange (e : StatusChangeEvent)
  | topologyChange (e : TopologyChangeEvent)
  deriving DecidableEq, Repr

/-- The `IsResponse` method of each message.  `authChallenge`, `authResponse` and
`ready` are translated from the source (note the source returns `false` for
`Ready`); the event variants are responses per the spec, and `startup` and
`options` are requests per the spec. -/
def Message.IsResponse : Message → Bool
  | .authChallenge _ => true
  | .authResponse _ => false
  | .ready => false
  | .startup => false
  | .options => false
  | .schemaChange _ => true
  | .statusChange _ => true
  | .topologyChange _ => true

/-- The `GetOpCode` method of each message, per the source where present and the spec's
opcode table otherwise. -/
def Message.GetOpCode : Message → OpCode
  | .authChallenge _ => OpCodeAuthChallenge
  | .authResponse _ => OpCodeAuthResponse
  | .ready => OpCodeReady
  | .startup => OpCodeStartup
  | .options => OpCodeOptions
  | .schemaChange _ => OpCodeEvent
  | .statusChange _ => OpCodeEvent
  | .topologyChange _ => OpCodeEvent

/-- The unchecked type assertion `event := msg.(*message.Event)` that opens
both `EventCodec.Encode` and `EventCodec.EncodedSize`.  `Event` is a struct —
the decoder constructs `SchemaChangeEvent{Event: Event{Type: ...}}` — and a
Go type assertion to a non-interface type succeeds only when the dynamic
type is identical to the asserted type; struct embedding does not qualify.
Every message of this universe has some concrete dynamic type other than a
bare `*message.Event`, so the assertion panics on every input (on success it
would yield the `Event.Type` string). -/
def eventAssert (_ : Message) : Except Err (List Nat) :=
  .error .assertFailed

/-! ## Message codecs

Translated from `src/cassandraprotocol/message` and the event codec of
`src/cassandraprotocol/codec`.  Writers receive `io.Writer`s (or `[]byte`
slices) in Go; here a successful encode returns the bytes it appends. -/

/-- Source `AuthChallengeCodec.Encode`: a checked type assertion, then the `bytes`
primitive. -/
def AuthChallengeCodec.Encode (msg : Message) (_ : ProtocolVersion) :
    Except Err (List Nat) :=
  match msg with
  | .authChallenge token => .ok (WriteBytes token)
  | _ => .error .typeMismatch

/-- Source `AuthChallengeCodec.EncodedLength`. -/
def AuthChallengeCodec.EncodedLength (msg : Message) (_ : ProtocolVersion) :
    Except Err Nat :=
  match msg with
  | .authChallenge token => .ok (LengthOfBytes token)
  | _ => .error .typeMismatch

/-- Source `AuthResponseCodec.Encode`: the source uses an unchecked type assertion
`msg.(*AuthResponse)`, which panics instead of returning an error on any
other dynamic type. -/
def AuthResponseCodec.Encode (msg : Message) (_ : ProtocolVersion) :
    Except Err (List Nat) :=
  match msg with
  | .authResponse token => .ok (WriteBytes token)
  | _ => .error .assertFailed

/-- Source `AuthResponseCodec.EncodedLength` (same unchecked assertion). -/
def AuthResponseCodec.EncodedLength (msg : Message) (_ : ProtocolVersion) :
    Except Err Nat :=
  match msg with
  | .authResponse token => .ok (LengthOfBytes token)
  | _ => .error .assertFailed

/-- Source `ReadyCodec.Encode` ignores all of its arguments and writes nothing. -/
def ReadyCodec.Encode (_ : Message) (_ : ProtocolVersion) :
    Except Err (List Nat) :=
  .ok []

/-- Source `ReadyCodec.EncodedLength` is 0 for every message. -/
def ReadyCodec.EncodedLength (_ : Message) (_ : ProtocolVersion) :
    Except Err Nat :=
  .ok 0

/-- Source `ReadyCodec.Decode` ignores its reader and returns `&Ready{}`; the
returned remainder is the whole source, since no byte is consumed. -/
def ReadyCodec.Decode (source : List Nat) (_ : ProtocolVersion) :
    Except Err (Message × List Nat) :=
  .ok (.ready, source)

/-- Source `EventCodec.Encode`: the unchecked `msg.(*message.Event)`
assertion first — which panics on every representable message, making the
rest unreachable — then the translated switch: write the event type string,
dispatch on it with a checked assertion to the concrete event struct in each
arm; the schema-change arm branches on the target, gating FUNCTION and
AGGREGATE on protocol version 4. -/
def EventCodec.Encode (msg : Message) (version : ProtocolVersion) :
    Except Err (List Nat) :=
  match eventAssert msg with
  | .error e => .error e
  | .ok ety =>
    if ety = EventTypeSchemaChange then
      match msg with
      | .schemaChange sce =>
        let out := WriteString ety ++ WriteString sce.changeType ++
          WriteString sce.target ++ WriteString sce.keyspace
        if sce.target = SchemaChangeTargetKeyspace then .ok out
        else if sce.target = SchemaChangeTargetTable ∨
            sce.target = SchemaChangeTargetType then
          .ok (out ++ WriteString sce.object)
        else if sce.target = SchemaChangeTargetAggregate ∨
            sce.target = SchemaChangeTargetFunction then
          if version < ProtocolVersion4 then .error .versionFeatureMismatch
          else .ok (out ++ WriteString sce.object ++ WriteStringList sce.arguments)
        else .error .unknownVariant
      | _ => .error .typeMismatch
    else if ety = EventTypeStatusChange then
      match msg with
      | .statusChange sce =>
        match WriteInet sce.address with
        | .error e => .error e
        | .ok inetBytes =>
          .ok (WriteString ety ++ WriteString sce.changeType ++ inetBytes)
      | _ => .error .typeMismatch
    else if ety = EventTypeTopologyChange then
      match msg with
      | .topologyChange tce =>
        match WriteInet tce.address with
        | .error e => .error e
        | .ok inetBytes =>
          .ok (WriteString ety ++ WriteString tce.changeType ++ inetBytes)
      | _ => .error .typeMismatch
    else .error .unknownVariant

/-- Source `EventCodec.EncodedSize`: the same unchecked `msg.(*message.Event)`
assertion first — a panic on every representable message — then the length
predictors mirroring the encoder's branch structure. -/
def EventCodec.EncodedSize (msg : Message) (version : ProtocolVersion) :
    Except Err Nat :=
  match eventAssert msg with
  | .error e => .error e
  | .ok ety =>
    if ety = EventTypeSchemaChange then
      match msg with
      | .schemaChange sce =>
        let size := LengthOfString ety + LengthOfString sce.changeType +
          LengthOfString sce.target + LengthOfString sce.keyspace
        if sce.target = SchemaChangeTargetKeyspace then .ok size
        else if sce.target = SchemaChangeTargetTable ∨
            sce.target = SchemaChangeTargetType then
          .ok (size + LengthOfString sce.object)
        else if sce.target = SchemaChangeTargetAggregate ∨
            sce.target = SchemaChangeTargetFunction then
          if version < ProtocolVersion4 then .error .versionFeatureMismatch
          else .ok (size + LengthOfString sce.object +
            LengthOfStringList sce.arguments)
        else .error .unknownVariant
      | _ => .error .typeMismatch
    else if ety = EventTypeStatusChange then
      match msg with
      | .statusChange sce =>
        match LengthOfInet sce.address with
        | .error e => .error e
        | .ok inetLength =>
          .ok (LengthOfString ety + LengthOfString sce.changeType + inetLength)
      | _ => .error .typeMismatch
    else if ety = EventTypeTopologyChange then
      match msg with
      | .topologyChange tce =>
        match LengthOfInet tce.address with
        | .error e => .error e
        | .ok inetLength =>
          .ok (LengthOfString ety + LengthOfString tce.changeType + inetLength)
      | _ => .error .typeMismatch
    else .error .unknownVariant

/-- Source `EventCodec.Decode`, translated faithfully from the source.  Note the
first statement of the source is `eventType, _, err := ReadString(source)`:
the remainder of that read is assigned to the blank identifier, so every
subsequent read starts from the unadvanced `source` again. -/
def EventCodec.Decode (source : List Nat) (version : ProtocolVersion) :
    Except Err Message :=
  match ReadString source with
  | .error e => .error e
  | .ok (eventType, _) =>
    if eventType = EventTypeSchemaChange then
      match ReadString source with
      | .error e => .error e
      | .ok (changeType, s1) =>
        match ReadString s1 with
        | .error e => .error e
        | .ok (target, s2) =>
          match ReadString s2 with
          | .error e => .error e
          | .ok (keyspace, s3) =>
            if target = SchemaChangeTargetKeyspace then
              .ok (.schemaChange ⟨eventType, changeType, target, keyspace, [], []⟩)
            else if target = SchemaChangeTargetTable ∨
                target = SchemaChangeTargetType then
              match ReadString s3 with
              | .error e => .error e
              | .ok (object, _) =>
                .ok (.schemaChange ⟨eventType, changeType, target, keyspace, object, []⟩)
            else if target = SchemaChangeTargetAggregate ∨
                target = SchemaChangeTargetFunction then
              if version < ProtocolVersion4 then .error .versionFeatureMismatch
              else
                match ReadString s3 with
                | .error e => .error e
                | .ok (object, s4) =>
                  match ReadStringList s4 with
                  | .error e => .error e
                  | .ok (arguments, _) =>
                    .ok (.schemaChange
                      ⟨eventType, changeType, target, keyspace, object, arguments⟩)
            else .error .unknownVariant
    else if eventType = EventTypeStatusChange then
      match ReadString source with
      | .error e => .error e
      | .ok (changeType, s1) =>
        match ReadInet s1 with
        | .error e => .error e
        | .ok (address, _) => .ok (.statusChange ⟨eventType, changeType, address⟩)
    else if eventType = EventTypeTopologyChange then
      match ReadString source with
      | .error e => .error e
      | .ok (changeType, s1) =>
        match ReadInet s1 with
        | .error e => .error e
        | .ok (address, _) => .ok (.topologyChange ⟨eventType, changeType, address⟩)
    else .error .unknownVariant

/-! ## Frame codec

Translated from `src/cassandraprotocol/frame/encoder.go`.  The `Frame`,
`Header`, `Body` and `Codec` struct declarations themselves are not under
`src/` and are modelled from the spec's data model (§3); every function is
translated from the source. -/

structure Header where
  version : ProtocolVersion
  streamId : Int
  opcode : OpCode
  tracingRequested : Bool
  deriving DecidableEq, Repr

structure Body where
  tracingId : Option (List Nat)
  customPayload : Option (List (List Nat × Option (List Nat)))
  warnings : Option (List (List Nat))
  message : Message
  deriving DecidableEq, Repr

structure Frame where
  header : Header
  body : Body
  deriving DecidableEq, Repr

/-- The `message.Encoder` interface: the encode/encoded-length pair the
frame codec obtains from its registry. -/
structure Encoder where
  encode : Message → ProtocolVersion → Except Err (List Nat)
  encodedLength : Message → ProtocolVersion → Except Err Nat

/-- Modelled from the spec §4.3: the registry maps opcode → message codec
and is populated at construction; the construction code is not under
`src/`.  This is the registry holding the four codecs of the covered
source. -/
def defaultRegistry (op : OpCode) : Option Encoder :=
  if op = OpCodeReady then some ⟨ReadyCodec.Encode, ReadyCodec.EncodedLength⟩
  else if op = OpCodeAuthChallenge then
    some ⟨AuthChallengeCodec.Encode, AuthChallengeCodec.EncodedLength⟩
  else if op = OpCodeAuthResponse then
    some ⟨AuthResponseCodec.Encode, AuthResponseCodec.EncodedLength⟩
  else if op = OpCodeEvent then
    some ⟨EventCodec.Encode, EventCodec.EncodedSize⟩
  else none

/-- The frame codec: a codec registry and an optional compressor.  The
compressor's `Compress` is modelled as a total function on byte lists. -/
structure Codec where
  codecs : OpCode → Option Encoder
  compressor : Option (List Nat → List Nat)

def encodedHeaderLength : Nat := 9

/-- Source `Codec.findEncoder`: registry lookup by the message's own opcode. -/
def Codec.findEncoder (c : Codec) (frame : Frame) : Except Err Encoder :=
  match c.codecs frame.body.message.GetOpCode with
  | some encoder => .ok encoder
  | none => .error .unsupportedOpcode

/-- Source `Codec.shouldCompress`: a compressor is present and the opcode is
neither STARTUP nor OPTIONS. -/
def Codec.shouldCompress (c : Codec) (frame : Frame) : Bool :=
  c.compressor.isSome &&
    !(frame.body.message.GetOpCode == OpCodeStartup) &&
    !(frame.body.message.GetOpCode == OpCodeOptions)

/-- Source `Codec.encodeFlags`: derives the header flags byte from the frame. -/
def Codec.encodeFlags (c : Codec) (frame : Frame) : Nat :=
  let flags0 : Nat := 0
  let flags1 := if c.shouldCompress frame then flags0 ||| HeaderFlagCompressed
    else flags0
  let flags2 := if frame.body.tracingId.isSome || frame.header.tracingRequested
    then flags1 ||| HeaderFlagTracing else flags1
  let flags3 := if frame.body.customPayload.isSome then
    flags2 ||| HeaderFlagCustomPayload else flags2
  let flags4 := if frame.body.warnings.isSome then flags3 ||| HeaderFlagWarning
    else flags3
  if frame.header.version == ProtocolVersionBeta then
    flags4 ||| HeaderFlagUseBeta
  else flags4

/-- Source `Codec.encodeHeader`: version-and-direction byte, flags byte, stream id
as an unsigned short (the Go cast `uint16(StreamId)`), opcode byte, body
length as an int. -/
def Codec.encodeHeader (c : Codec) (frame : Frame) (bodyLength : Nat) :
    List Nat :=
  let versionAndDirection := if frame.body.message.IsResponse then
    frame.header.version ||| 0b10000000 else frame.header.version
  WriteByte versionAndDirection ++
    WriteByte (c.encodeFlags frame) ++
    WriteShort (frame.header.streamId % 65536).toNat ++
    WriteByte frame.body.message.GetOpCode ++
    WriteInt (bodyLength : Int)

/-- Source `Codec.uncompressedBodyLength`: the message codec's encoded length plus
the optional prefix lengths.  Note the source adds `LengthOfUuid` whenever
`TracingId` is non-nil, without the `IsResponse` test that the body writer
performs. -/
def Codec.uncompressedBodyLength (c : Codec) (frame : Frame) :
    Except Err Nat :=
  match c.findEncoder frame with
  | .error e => .error e
  | .ok encoder =>
    match encoder.encodedLength frame.body.message frame.header.version with
    | .error e => .error e
    | .ok mlen =>
      .ok (mlen +
        (if frame.body.tracingId.isSome then LengthOfUuid else 0) +
        (match frame.body.customPayload with
          | some p => LengthOfBytesMap p
          | none => 0) +
        (match frame.body.warnings with
          | some w => LengthOfStringList w
          | none => 0))

/-- Source `Codec.encodeBodyUncompressed`: tracing id (only when the message is a
response), custom payload, warnings, then the message bytes. -/
def Codec.encodeBodyUncompressed (c : Codec) (frame : Frame) :
    Except Err (List Nat) :=
  match c.findEncoder frame with
  | .error e => .error e
  | .ok encoder =>
    match encoder.encode frame.body.message frame.header.version with
    | .error e => .error e
    | .ok messageBytes =>
      .ok ((if frame.body.message.IsResponse then
              match frame.body.tracingId with
              | some u => WriteUuid u
              | none => []
            else []) ++
        (match frame.body.customPayload with
          | some p => WriteBytesMap p
          | none => []) ++
        (match frame.body.warnings with
          | some w => WriteStringList w
          | none => []) ++
        messageBytes)

/-- Source `Codec.encodeFrameUncompressed`: header with the computed body length,
then the uncompressed body. -/
def Codec.encodeFrameUncompressed (c : Codec) (frame : Frame) :
    Except Err (List Nat) :=
  match c.uncompressedBodyLength frame with
  | .error e => .error e
  | .ok encodedBodyLength =>
    match c.encodeBodyUncompressed frame with
    | .error e => .error e
    | .ok body => .ok (c.encodeHeader frame encodedBodyLength ++ body)

/-- Source `Codec.encodeFrameCompressed`: encode the uncompressed body, compress
it whole, then emit the header with the compressed length.  The source
computes the uncompressed length first (to size the scratch buffer) and
propagates its error; it dereferences the compressor, which is non-nil
whenever this function is reached. -/
def Codec.encodeFrameCompressed (c : Codec) (frame : Frame) :
    Except Err (List Nat) :=
  match c.uncompressedBodyLength frame with
  | .error e => .error e
  | .ok _ =>
    match c.encodeBodyUncompressed frame with
    | .error e => .error e
    | .ok body =>
      match c.compressor with
      | some compress =>
        .ok (c.encodeHeader frame (compress body).length ++ compress body)
      | none => .error .assertFailed

/-- Source `Codec.Encode`: version-gates custom payload and warnings, then takes
the compressed or uncompressed path. -/
def Codec.Encode (c : Codec) (frame : Frame) : Except Err (List Nat) :=
  if frame.header.version < ProtocolVersion4 ∧
      frame.body.customPayload.isSome = true then
    .error .payloadVersionError
  else if frame.header.version < ProtocolVersion4 ∧
      frame.body.warnings.isSome = true then
    .error .warningsVersionError
  else if c.shouldCompress frame then c.encodeFrameCompressed frame
  else c.encodeFrameUncompressed frame

/-! ## Concrete fixtures used by the theorems -/

/-- A frame codec holding the registry of the covered source and no
compressor. -/
def registryCodec : Codec := ⟨defaultRegistry, none⟩

/-- The READY response frame of the spec's scenario 1: version 4, stream 0. -/
def frameReady : Frame := ⟨⟨4, 0, OpCodeReady, false⟩, ⟨none, none, none, .ready⟩⟩

/-- The AUTH_CHALLENGE frame of the spec's scenario 2: version 4, stream 0,
token `01 02 03`. -/
def frameAuthChallenge : Frame :=
  ⟨⟨4, 0, OpCodeAuthChallenge, false⟩,
   ⟨none, none, none, .authChallenge (some [1, 2, 3])⟩⟩

/-- A request frame (AUTH_RESPONSE, empty token) carrying a tracing id. -/
def frameRequestWithTracing : Frame :=
  ⟨⟨4, 0, OpCodeAuthResponse, false⟩,
   ⟨some (List.replicate 16 0), none, none, .authResponse (some [])⟩⟩

/-- The schema change event of the spec's scenario 3: CREATED TABLE ks.t. -/
def sceCreatedTable : SchemaChangeEvent :=
  ⟨EventTypeSchemaChange, ascii "CREATED", ascii "TABLE", ascii "ks",
   ascii "t", []⟩

/-- The well-formed SCHEMA_CHANGE wire body for `CREATED TABLE ks.t`,
assembled by hand per the wire layout (the encoder itself panics before
producing any bytes). -/
def bodyCreatedTable : List Nat :=
  WriteString EventTypeSchemaChange ++ WriteString (ascii "CREATED") ++
    WriteString (ascii "TABLE") ++ WriteString (ascii "ks") ++
    WriteString (ascii "t")

/-! ## Theorems -/

/-- C1: the event codec cannot round-trip any event message.  Encode never
serializes anything: on every concrete event variant it panics at the
unchecked `msg.(*message.Event)` assertion (`Event` is an embedded struct,
and a Go assertion to a non-interface type requires an identical dynamic
type), so the body bytes the round trip would feed to Decode never exist.
Independently, decoding even a well-formed hand-assembled wire body fails:
the decoder discards the cursor advance of its first read, re-reads
`SCHEMA_CHANGE` as the change type and `CREATED` as the target, and no
switch arm matches `CREATED`. -/
theorem event_roundtrip_broken :
    (∀ (e : SchemaChangeEvent) (v : ProtocolVersion),
      EventCodec.Encode (.schemaChange e) v = .error .assertFailed) ∧
    (∀ (e : StatusChangeEvent) (v : ProtocolVersion),
      EventCodec.Encode (.statusChange e) v = .error .assertFailed) ∧
    (∀ (e : TopologyChangeEvent) (v : ProtocolVersion),
      EventCodec.Encode (.topologyChange e) v = .error .assertFailed) ∧
    EventCodec.Decode bodyCreatedTable 4 = .error .unknownVariant :=
  ⟨fun _ _ => rfl, fun _ _ => rfl, fun _ _ => rfl, rfl⟩

/-- C2: the header's body-length field disagrees with the body as written on
a request frame carrying a tracing id.  `uncompressedBodyLength` counts the
16 uuid bytes (no `IsResponse` test), the body writer skips them (it tests
`IsResponse`), and the encode still succeeds: the emitted frame declares a
20-byte body (bytes 5..8 are `00 00 00 14`) while the body written after the
9-byte header is only the 4 bytes `00 00 00 00`. -/
theorem header_length_mismatch_on_request_tracing :
    registryCodec.uncompressedBodyLength frameRequestWithTracing = .ok 20 ∧
    registryCodec.encodeBodyUncompressed frameRequestWithTracing =
      .ok [0, 0, 0, 0] ∧
    registryCodec.Encode frameRequestWithTracing =
      .ok [4, 2, 0, 0, 15, 0, 0, 0, 20, 0, 0, 0, 0] ∧
    (20 : Nat) ≠ [(0 : Nat), 0, 0, 0].length :=
  ⟨rfl, rfl, rfl, by decide⟩

/-- C3: encoding the READY frame of scenario 1 does not produce
`84 00 00 00 02 00 00 00 00`: the source's `Ready.IsResponse` returns
`false`, so the direction bit stays clear and the first byte is `04`. -/
theorem ready_frame_direction_bug :
    registryCodec.Encode frameReady = .ok [0x04, 0, 0, 0, 0x02, 0, 0, 0, 0] ∧
    Message.IsResponse .ready = false ∧
    registryCodec.Encode frameReady ≠
      .ok [0x84, 0, 0, 0, 0x02, 0, 0, 0, 0] := by
  refine ⟨rfl, rfl, ?_⟩
  intro h
  rw [show registryCodec.Encode frameReady =
    .ok [0x04, 0, 0, 0, 0x02, 0, 0, 0, 0] from rfl] at h
  exact absurd (Except.ok.inj h) (by decide)

/-- C9: encoding the AUTH_CHALLENGE frame at version 4 with token
`01 02 03` and no compressor produces the header
`84 00 00 00 0E 00 00 00 07` followed by the body `00 00 00 03 01 02 03`. -/
theorem auth_challenge_frame_encoding :
    registryCodec.Encode frameAuthChallenge =
      .ok [0x84, 0, 0, 0, 0x0E, 0, 0, 0, 7, 0, 0, 0, 3, 1, 2, 3] :=
  rfl

/-- C10: `ReadyCodec.Decode` returns a `Ready` message for every input and
every version without consuming any byte: the remainder it returns is the
entire source, so a non-empty body succeeds and trailing bytes are
ignored. -/
theorem ready_decode_ignores_input (source : List Nat) (v : ProtocolVersion) :
    ReadyCodec.Decode source v = .ok (.ready, source) :=
  rfl

/-- C4 counterexample: not every registered codec returns a `TypeMismatch`
error on a message of the wrong concrete type.  `ReadyCodec` — registered
for opcode READY — ignores its message argument entirely, so encoding an
`AuthChallenge` message through it succeeds instead of failing. -/
theorem type_mismatch_counterexample :
    ReadyCodec.Encode (.authChallenge (some [1, 2, 3])) 4 = .ok [] ∧
    registryCodec.codecs OpCodeReady =
      some ⟨ReadyCodec.Encode, ReadyCodec.EncodedLength⟩ :=
  ⟨rfl, rfl⟩

/-- C4 (amended): only `AuthChallengeCodec.Encode` — the one checked
assertion — returns a `TypeMismatch` error, on every non-`AuthChallenge`
message.  `AuthResponseCodec.Encode` fails an unchecked type assertion (a
panic, not a returned error) on every other message type;
`ReadyCodec.Encode` ignores its message and accepts everything; and
`EventCodec.Encode` fails its unchecked `msg.(*message.Event)` assertion (a
panic) on every representable message, matching event variant or not. -/
theorem type_mismatch_behavior :
    (∀ (m : Message) (v : ProtocolVersion),
      (∀ t, m ≠ .authChallenge t) →
      AuthChallengeCodec.Encode m v = .error .typeMismatch) ∧
    (∀ (m : Message) (v : ProtocolVersion),
      (∀ t, m ≠ .authResponse t) →
      AuthResponseCodec.Encode m v = .error .assertFailed) ∧
    (∀ (m : Message) (v : ProtocolVersion), ReadyCodec.Encode m v = .ok []) ∧
    (∀ (m : Message) (v : ProtocolVersion),
      EventCodec.Encode m v = .error .assertFailed) := by
  refine ⟨?_, ?_, ?_, ?_⟩
  · intro m v hm
    cases m with
    | authChallenge t => exact absurd rfl (hm t)
    | _ => rfl
  · intro m v hm
    cases m with
    | authResponse t => exact absurd rfl (hm t)
    | _ => rfl
  · intro m v
    rfl
  · intro m v
    rfl

/-- Witness for the amended C4 at concrete inputs; the last conjunct shows
the event codec panicking even on a schema-change event whose stored type
string matches its variant. -/
theorem type_mismatch_behavior_witness :
    AuthChallengeCodec.Encode .ready 4 = .error .typeMismatch ∧
    AuthResponseCodec.Encode .ready 4 = .error .assertFailed ∧
    ReadyCodec.Encode (.authResponse none) 4 = .ok [] ∧
    EventCodec.Encode (.schemaChange sceCreatedTable) 4 =
      .error .assertFailed :=
  ⟨type_mismatch_behavior.1 .ready 4 (fun _ h => Message.noConfusion h),
   type_mismatch_behavior.2.1 .ready 4 (fun _ h => Message.noConfusion h),
   type_mismatch_behavior.2.2.1 (.authResponse none) 4,
   type_mismatch_behavior.2.2.2 (.schemaChange sceCreatedTable) 4⟩

/-- C6: the emitted flags byte is exactly the union of the five condition
bits: bit 0 (compressed) iff a compressor is present and the opcode is
neither STARTUP nor OPTIONS, bit 1 (tracing) iff a tracing id is present or
tracing was requested, bit 2 iff a custom payload is present, bit 3 iff
warnings are present, bit 4 iff the version is the beta version — and no
other bit is ever set. -/
theorem encode_flags_characterization (c : Codec) (f : Frame) :
    c.encodeFlags f < 32 ∧
    (c.encodeFlags f).testBit 0 =
      (c.compressor.isSome && !(f.body.message.GetOpCode == OpCodeStartup) &&
        !(f.body.message.GetOpCode == OpCodeOptions)) ∧
    (c.encodeFlags f).testBit 1 =
      (f.body.tracingId.isSome || f.header.tracingRequested) ∧
    (c.encodeFlags f).testBit 2 = f.body.customPayload.isSome ∧
    (c.encodeFlags f).testBit 3 = f.body.warnings.isSome ∧
    (c.encodeFlags f).testBit 4 = (f.header.version == ProtocolVersionBeta) := by
  have key : ∀ b1 b2 b3 b4 b5 : Bool,
      (let flags0 : Nat := 0
       let flags1 := if b1 then flags0 ||| HeaderFlagCompressed else flags0
       let flags2 := if b2 then flags1 ||| HeaderFlagTracing else flags1
       let flags3 := if b3 then flags2 ||| HeaderFlagCustomPayload else flags2
       let flags4 := if b4 then flags3 ||| HeaderFlagWarning else flags3
       if b5 then flags4 ||| HeaderFlagUseBeta else flags4) < 32 ∧
      (let flags0 : Nat := 0
       let flags1 := if b1 then flags0 ||| HeaderFlagCompressed else flags0
       let flags2 := if b2 then flags1 ||| HeaderFlagTracing else flags1
       let flags3 := if b3 then flags2 ||| HeaderFlagCustomPayload else flags2
       let flags4 := if b4 then flags3 ||| HeaderFlagWarning else flags3
       if b5 then flags4 ||| HeaderFlagUseBeta else flags4).testBit 0 = b1 ∧
      (let flags0 : Nat := 0
       let flags1 := if b1 then flags0 ||| HeaderFlagCompressed else flags0
       let flags2 := if b2 then flags1 ||| HeaderFlagTracing else flags1
       let flags3 := if b3 then flags2 ||| HeaderFlagCustomPayload else flags2
       let flags4 := if b4 then flags3 ||| HeaderFlagWarning else flags3
       if b5 then flags4 ||| HeaderFlagUseBeta else flags4).testBit 1 = b2 ∧
      (let flags0 : Nat := 0
       let flags1 := if b1 then flags0 ||| HeaderFlagCompressed else flags0
       let flags2 := if b2 then flags1 ||| HeaderFlagTracing else flags1
       let flags3 := if b3 then flags2 ||| HeaderFlagCustomPayload else flags2
       let flags4 := if b4 then flags3 ||| HeaderFlagWarning else flags3
       if b5 then flags4 ||| HeaderFlagUseBeta else flags4).testBit 2 = b3 ∧
      (let flags0 : Nat := 0
       let flags1 := if b1 then flags0 ||| HeaderFlagCompressed else flags0
       let flags2 := if b2 then flags1 ||| HeaderFlagTracing else flags1
       let flags3 := if b3 then flags2 ||| HeaderFlagCustomPayload else flags2
       let flags4 := if b4 then flags3 ||| HeaderFlagWarning else flags3
       if b5 then flags4 ||| HeaderFlagUseBeta else flags4).testBit 3 = b4 ∧
      (let flags0 : Nat := 0
       let flags1 := if b1 then flags0 ||| HeaderFlagCompressed else flags0
       let flags2 := if b2 then flags1 ||| HeaderFlagTracing else flags1
       let flags3 := if b3 then flags2 ||| HeaderFlagCustomPayload else flags2
       let flags4 := if b4 then flags3 ||| HeaderFlagWarning else flags3
       if b5 then flags4 ||| HeaderFlagUseBeta else flags4).testBit 4 = b5 := by
    decide
  exact key (c.shouldCompress f)
    (f.body.tracingId.isSome || f.header.tracingRequested)
    f.body.customPayload.isSome f.body.warnings.isSome
    (f.header.version == ProtocolVersionBeta)

/-- C8: the schema-change branch code of the event codec is unreachable.
The claim (and the switch arms present in the source) prescribe per-target
bodies, an unknown-variant error for other targets, and agreement between
`EncodedSize` and the bytes `Encode` writes; but both functions panic at the
unchecked `msg.(*message.Event)` assertion on every schema-change event,
before the target switch, at every version, so no branch ever runs and
neither function ever succeeds or returns one of the prescribed errors. -/
theorem schema_change_branches_unreachable (sce : SchemaChangeEvent)
    (v : ProtocolVersion) :
    EventCodec.Encode (.schemaChange sce) v = .error .assertFailed ∧
    EventCodec.EncodedSize (.schemaChange sce) v = .error .assertFailed :=
  ⟨rfl, rfl⟩

/-- C7: the 16-byte tracing id prefix is written into the uncompressed body
iff the message is a response and a tracing id is present.  For a response,
the body with a tracing id is exactly the uuid bytes prepended to the body
without one; for a request, the body is identical whether or not a tracing
id is set — no uuid bytes are written. -/
theorem tracing_prefix_iff_response (c : Codec) (h : Header)
    (p : Option (List (List Nat × Option (List Nat))))
    (w : Option (List (List Nat))) (m : Message) (u : List Nat) :
    (m.IsResponse = true →
      c.encodeBodyUncompressed ⟨h, ⟨some u, p, w, m⟩⟩ =
        (c.encodeBodyUncompressed ⟨h, ⟨none, p, w, m⟩⟩).map
          (fun bs => WriteUuid u ++ bs)) ∧
    (m.IsResponse = false →
      c.encodeBodyUncompressed ⟨h, ⟨some u, p, w, m⟩⟩ =
        c.encodeBodyUncompressed ⟨h, ⟨none, p, w, m⟩⟩) := by
  refine ⟨?_, ?_⟩ <;> intro hr
  all_goals
    simp only [Codec.encodeBodyUncompressed, Codec.findEncoder]
    cases c.codecs m.GetOpCode with
    | none => rfl
    | some enc =>
      dsimp only
      cases enc.encode m h.version with
      | error e => simp [Except.map]
      | ok mb => simp [hr, Except.map, List.append_assoc]

/-- Witness for C7: a response message (`AuthChallenge`) gets the uuid
prefix prepended; a request message (`AuthResponse`) gets no uuid bytes. -/
theorem tracing_prefix_iff_response_witness :
    (registryCodec.encodeBodyUncompressed
        ⟨⟨4, 0, OpCodeAuthChallenge, false⟩,
         ⟨some (List.replicate 16 7), none, none, .authChallenge none⟩⟩ =
      (registryCodec.encodeBodyUncompressed
        ⟨⟨4, 0, OpCodeAuthChallenge, false⟩,
         ⟨none, none, none, .authChallenge none⟩⟩).map
        (fun bs => WriteUuid (List.replicate 16 7) ++ bs)) ∧
    (registryCodec.encodeBodyUncompressed
        ⟨⟨4, 0, OpCodeAuthResponse, false⟩,
         ⟨some (List.replicate 16 7), none, none, .authResponse none⟩⟩ =
      registryCodec.encodeBodyUncompressed
        ⟨⟨4, 0, OpCodeAuthResponse, false⟩,
         ⟨none, none, none, .authResponse none⟩⟩) :=
  ⟨(tracing_prefix_iff_response registryCodec ⟨4, 0, OpCodeAuthChallenge, false⟩
      none none (.authChallenge none) (List.replicate 16 7)).1 rfl,
   (tracing_prefix_iff_response registryCodec ⟨4, 0, OpCodeAuthResponse, false⟩
      none none (.authResponse none) (List.replicate 16 7)).2 rfl⟩

/-! ## Version gating -/

/-- Reading back a written string yields the string and leaves the trailing
bytes untouched, provided its length fits in a short. -/
theorem readString_writeString (s r : List Nat) (hs : s.length < 65536) :
    ReadString (WriteString s ++ r) = .ok (s, r) := by
  have hb : WriteString s ++ r =
      (s.length / 256 % 256) :: (s.length % 256) :: (s ++ r) := by
    simp [WriteString, WriteShort]
  rw [hb]
  simp only [ReadString, ReadShort]
  have hn : s.length / 256 % 256 * 256 + s.length % 256 = s.length := by omega
  rw [hn, if_pos (by rw [List.length_append]; exact Nat.le_add_right _ _),
    List.take_left, List.drop_left]

/-- Decoding a schema-change body whose second string (read as the target,
because of the discarded first-read remainder) matches no known target fails
with the unknown-variant error, at every version. -/
theorem decode_unknown_target_error (v : ProtocolVersion)
    (ct tgt ks obj : List Nat) (args : List (List Nat))
    (hct : ct.length < 65536) (htgt : tgt.length < 65536)
    (h1 : ct ≠ SchemaChangeTargetKeyspace) (h2 : ct ≠ SchemaChangeTargetTable)
    (h3 : ct ≠ SchemaChangeTargetType) (h4 : ct ≠ SchemaChangeTargetAggregate)
    (h5 : ct ≠ SchemaChangeTargetFunction) :
    EventCodec.Decode (WriteString EventTypeSchemaChange ++ WriteString ct ++
      WriteString tgt ++ WriteString ks ++ WriteString obj ++
      WriteStringList args) v = .error .unknownVariant := by
  have e1 := readString_writeString EventTypeSchemaChange
    (WriteString ct ++ (WriteString tgt ++ (WriteString ks ++
      (WriteString obj ++ WriteStringList args)))) (by decide)
  have e2 := readString_writeString ct
    (WriteString tgt ++ (WriteString ks ++
      (WriteString obj ++ WriteStringList args))) hct
  have e3 := readString_writeString tgt
    (WriteString ks ++ (WriteString obj ++ WriteStringList args)) htgt
  simp only [List.append_assoc]
  simp [EventCodec.Decode, e1, e2, e3, h1, h2, h3, h4, h5]

/-- C5: version gating, as the code actually behaves.  Below protocol
version 4, frame encode returns the payload error when a custom payload is
present and returns an error when warnings are present, and decoding a
well-formed SCHEMA_CHANGE event body (change type CREATED, UPDATED or
DROPPED) with target FUNCTION or AGGREGATE below version 4 fails — all as
claimed.  But for a frame whose body is a SCHEMA_CHANGE event with target
FUNCTION or AGGREGATE, encode does not return an error value: it reaches
`EventCodec.EncodedSize`, which panics at the unchecked
`msg.(*message.Event)` assertion before its version check (the check in the
source is unreachable), so the caller gets a crash, not an error. -/
theorem version_gating :
    (∀ (c : Codec) (f : Frame), f.header.version < ProtocolVersion4 →
      f.body.customPayload.isSome = true →
      c.Encode f = .error .payloadVersionError) ∧
    (∀ (c : Codec) (f : Frame), f.header.version < ProtocolVersion4 →
      f.body.warnings.isSome = true →
      ∃ e, c.Encode f = .error e) ∧
    (∀ (comp : Option (List Nat → List Nat)) (h : Header)
        (tid : Option (List Nat)) (sce : SchemaChangeEvent),
      h.version < ProtocolVersion4 →
      sce.eventType = EventTypeSchemaChange →
      (sce.target = SchemaChangeTargetFunction ∨
        sce.target = SchemaChangeTargetAggregate) →
      (Codec.mk defaultRegistry comp).Encode
        ⟨h, ⟨tid, none, none, .schemaChange sce⟩⟩ =
        .error .assertFailed) ∧
    (∀ (v : ProtocolVersion) (ct ks obj : List Nat) (args : List (List Nat)),
      v < ProtocolVersion4 →
      (ct = ascii "CREATED" ∨ ct = ascii "UPDATED" ∨ ct = ascii "DROPPED") →
      ∀ tgt, (tgt = SchemaChangeTargetFunction ∨
        tgt = SchemaChangeTargetAggregate) →
      EventCodec.Decode (WriteString EventTypeSchemaChange ++ WriteString ct ++
        WriteString tgt ++ WriteString ks ++ WriteString obj ++
        WriteStringList args) v = .error .unknownVariant) := by
  refine ⟨?_, ?_, ?_, ?_⟩
  · intro c f h1 h2
    unfold Codec.Encode
    rw [if_pos ⟨h1, h2⟩]
  · intro c f h1 h2
    by_cases hp : f.body.customPayload.isSome = true
    · exact ⟨.payloadVersionError, by unfold Codec.Encode; rw [if_pos ⟨h1, hp⟩]⟩
    · exact ⟨.warningsVersionError, by
        unfold Codec.Encode
        rw [if_neg (fun hh => hp hh.2), if_pos ⟨h1, h2⟩]⟩
  · intro comp h tid sce _hv _hty _ht
    have hubl : (Codec.mk defaultRegistry comp).uncompressedBodyLength
        ⟨h, ⟨tid, none, none, .schemaChange sce⟩⟩ =
        .error .assertFailed := rfl
    unfold Codec.Encode
    rw [if_neg (by simp), if_neg (by simp)]
    by_cases hc : (Codec.mk defaultRegistry comp).shouldCompress
        ⟨h, ⟨tid, none, none, .schemaChange sce⟩⟩
    · rw [if_pos hc]
      unfold Codec.encodeFrameCompressed
      rw [hubl]
    · rw [if_neg hc]
      unfold Codec.encodeFrameUncompressed
      rw [hubl]
  · intro v ct ks obj args _hv hct tgt htgt
    rcases htgt with htgt | htgt <;> rcases hct with hct | hct | hct <;>
      subst htgt <;> subst hct <;>
      exact decode_unknown_target_error v _ _ ks obj args (by decide)
        (by decide) (by decide) (by decide) (by decide) (by decide) (by decide)

/-- The schema change event CREATED FUNCTION ks.f used by the C5 witness. -/
def sceCreatedFunction : SchemaChangeEvent :=
  ⟨EventTypeSchemaChange, ascii "CREATED", SchemaChangeTargetFunction,
   ascii "ks", ascii "f", []⟩

/-- Witness for C5 at concrete version-3 inputs. -/
theorem version_gating_witness :
    registryCodec.Encode
      ⟨⟨3, 0, OpCodeReady, false⟩, ⟨none, some [], none, .ready⟩⟩ =
      .error .payloadVersionError ∧
    (∃ e, registryCodec.Encode
      ⟨⟨3, 0, OpCodeReady, false⟩, ⟨none, none, some [], .ready⟩⟩ =
      .error e) ∧
    registryCodec.Encode
      ⟨⟨3, 0, OpCodeEvent, false⟩,
       ⟨none, none, none, .schemaChange sceCreatedFunction⟩⟩ =
      .error .assertFailed ∧
    EventCodec.Decode (WriteString EventTypeSchemaChange ++
      WriteString (ascii "CREATED") ++ WriteString SchemaChangeTargetFunction ++
      WriteString (ascii "ks") ++ WriteString (ascii "f") ++
      WriteStringList []) 3 = .error .unknownVariant :=
  ⟨version_gating.1 registryCodec _ (by decide) rfl,
   version_gating.2.1 registryCodec _ (by decide) rfl,
   version_gating.2.2.1 none ⟨3, 0, OpCodeEvent, false⟩ none sceCreatedFunction
     (by decide) rfl (Or.inl rfl),
   version_gating.2.2.2 3 (ascii "CREATED") (ascii "ks") (ascii "f") []
     (by decide) (Or.inl rfl) SchemaChangeTargetFunction (Or.inl rfl)⟩

end CassandraProtocol
